import Mathlib

/-!
Verification of the BofhContract calldata codec (`bofh/contract/__init__.py`)
and selector discovery (`bofh/contract/__main__.py`).

The Python code is shallowly embedded: pool addresses are modelled by their
integer values (the Python code parses the address string with `int(str(addr), 16)`
before packing, so a word never sees anything but the integer value); Python's
unbounded `int` is modelled by `Nat` (all packed quantities are non-negative);
`assert` failures and `raise`d exceptions are modelled by `Except.error` values
named after the specification's error taxonomy (§7):
`AssertionError` on `len(pools) == len(fees)`, on `len(t) == 8` and on the
reconciliation length guard, and the `TypeError` on the override-fee length are
`ShapeMismatch` / `RowShapeError`; the `ValueError`s raised during selector
discovery are `SelectorShapeError`.
-/

set_option maxRecDepth 4000

/-- Equality of `Except` results is decidable, so claims can be checked on
concrete inputs. -/
instance {ε α : Type _} [DecidableEq ε] [DecidableEq α] :
    DecidableEq (Except ε α) := fun x y =>
  match x, y with
  | Except.ok a, Except.ok b =>
      if h : a = b then Decidable.isTrue (congrArg Except.ok h)
      else Decidable.isFalse (fun hc => h (Except.ok.inj hc))
  | Except.error e, Except.error f =>
      if h : e = f then Decidable.isTrue (congrArg Except.error h)
      else Decidable.isFalse (fun hc => h (Except.error.inj hc))
  | Except.ok _, Except.error _ => Decidable.isFalse (fun hc => Except.noConfusion hc)
  | Except.error _, Except.ok _ => Decidable.isFalse (fun hc => Except.noConfusion hc)

namespace BofhContract

/-- Error taxonomy of the codec core (`__init__.py`), named per spec §7. -/
inductive CodecErr
  | ShapeMismatch
  | RowShapeError
  | NotASequence
  deriving DecidableEq, Repr

/-- One step word of `SwapInspection.pack_args_payload` (`__init__.py` lines
102-106): for the enumerated pair `(i, (addr, fee))`,
`val = int(str(addr), 16) | (fee << 160)`, and bit 180 is additionally set when
`stop_after_pool == i`.  `stop_after_pool` is `Option Int` so that arbitrary
(also negative) integers compare against the index as in Python. -/
def step_word (stop_after_pool : Option Int) (p : Nat × (Nat × Nat)) : Nat :=
  let val := p.2.1 ||| (p.2.2 <<< 160)
  if stop_after_pool = some (p.1 : Int) then val ||| (1 <<< 180) else val

/-- The final amounts word of `pack_args_payload` (`__init__.py` lines 107-109):
`(initial_amount & MASK128) | ((expected_amount & MASK128) << 128)`. -/
def amounts_word (initial_amount expected_amount : Nat) : Nat :=
  (initial_amount &&& 0xffffffffffffffffffffffffffffffff) |||
  ((expected_amount &&& 0xffffffffffffffffffffffffffffffff) <<< 128)

/-- `SwapInspection.pack_args_payload` (`__init__.py` lines 94-112).
The `assert len(pools) == len(fees)` is the `ShapeMismatch` branch; the loop
`for i, (addr, fee) in enumerate(zip(pools, fees))` is the `enum`/`zip`/`map`;
the function returns `[args]`: the word list wrapped as the sole element of a
one-argument parameter list. -/
def pack_args_payload (pools : List Nat) (fees : List Nat)
    (initial_amount : Nat) (expected_amount : Nat)
    (stop_after_pool : Option Int) : Except CodecErr (List (List Nat)) :=
  if pools.length = fees.length then
    Except.ok [(pools.zip fees).enum.map (step_word stop_after_pool)
               ++ [amounts_word initial_amount expected_amount]]
  else
    Except.error CodecErr.ShapeMismatch

/-! ### Bit-level facts about the word layout -/

theorem lor_shl_mod (a f n : Nat) (ha : a < 2 ^ n) :
    (a ||| f <<< n) % 2 ^ n = a := by
  apply Nat.eq_of_testBit_eq
  intro i
  simp only [Nat.testBit_mod_two_pow, Nat.testBit_lor, Nat.testBit_shiftLeft]
  by_cases hi : i < n
  · have hni : ¬ i ≥ n := by omega
    simp [hi, hni]
  · have hb : a.testBit i = false :=
      Nat.testBit_lt_two_pow
        (lt_of_lt_of_le ha (Nat.pow_le_pow_right (by norm_num) (by omega)))
    simp [hi, hb]

theorem lor_shl_shr (a f n : Nat) (ha : a < 2 ^ n) :
    (a ||| f <<< n) >>> n = f := by
  apply Nat.eq_of_testBit_eq
  intro i
  simp only [Nat.testBit_shiftRight, Nat.testBit_lor, Nat.testBit_shiftLeft]
  have ha' : a.testBit (n + i) = false :=
    Nat.testBit_lt_two_pow
      (lt_of_lt_of_le ha (Nat.pow_le_pow_right (by norm_num) (by omega)))
  have h1 : n + i ≥ n := by omega
  have h2 : n + i - n = i := by omega
  simp [ha', h1, h2]

theorem lor_shl_shr_mod (a f n m : Nat) (ha : a < 2 ^ n) (hf : f < 2 ^ m) :
    ((a ||| f <<< n) >>> n) % 2 ^ m = f := by
  rw [lor_shl_shr a f n ha, Nat.mod_eq_of_lt hf]

/-- In-range address and fee leave bit 180 of a step word clear. -/
theorem step_val_testBit_180 (p f : Nat) (hp : p < 2 ^ 160) (hf : f < 2 ^ 20) :
    (p ||| f <<< 160).testBit 180 = false := by
  have hp' : p.testBit 180 = false :=
    Nat.testBit_lt_two_pow
      (lt_of_lt_of_le hp (Nat.pow_le_pow_right (by norm_num) (by omega)))
  have hf' : f.testBit 20 = false :=
    Nat.testBit_lt_two_pow hf
  have h1 : (180 : Nat) ≥ 160 := by omega
  have h2 : (180 : Nat) - 160 = 20 := by omega
  simp [Nat.testBit_lor, Nat.testBit_shiftLeft, hp', h1, h2, hf']

theorem amounts_word_eq (ia ea : Nat) :
    amounts_word ia ea = (ia % 2 ^ 128) ||| ((ea % 2 ^ 128) <<< 128) := by
  have hm : (0xffffffffffffffffffffffffffffffff : Nat) = 2 ^ 128 - 1 := by norm_num
  simp only [amounts_word, hm, Nat.and_pow_two_sub_one_eq_mod]

/-! ### Path extraction: `SwapInspection.inspection_calldata` -/

/-- The pool object a swap step exposes (external collaborator: the code reads
`swap.pool.address` and `swap.pool.feesPPM()`; the address is modelled by its
integer value, see the header note). -/
structure Pool where
  address : Nat
  feesPPM : Nat
  deriving DecidableEq, Repr, Inhabited

/-- One step of the externally owned path; `path.get(i)` exposes `swap.pool`. -/
structure Swap where
  pool : Pool
  deriving DecidableEq, Repr, Inhabited

/-- The `override_fees` argument of `inspection_calldata`: Python `None`, a
single `int`, or a `list` whose entries may be `None` (spec §9's tagged
variant `NoOverride | Broadcast(value) | PerStep(sequence)`). -/
inductive OverrideFees
  | absent
  | int (f : Nat)
  | list (fs : List (Option Nat))
  deriving DecidableEq, Repr

/-- Python truthiness of the `override_fees` argument as used by
`if override_fees:` — `None`, `0` and `[]` are all falsy. -/
def OverrideFees.truthy : OverrideFees → Bool
  | .absent => false
  | .int f => f != 0
  | .list fs => fs != []

/-- `SwapInspection.inspection_calldata` (`__init__.py` lines 69-92).
When `override_fees` is truthy, an `int` is broadcast to `[f] * path.size()`
and the length of the (possibly rebound) list is checked against `len(path)`
(`TypeError` = `ShapeMismatch`); the loop then takes each step's
`swap.pool.feesPPM()` unless a non-`None` override entry is present, and the
result delegates to `pack_args_payload` with `expected_amount = 0`.
The `TypeError` branch for an override that is neither `int` nor `list`
(spec's `UnsupportedOverrideType`) is unreachable in this typed embedding. -/
def inspection_calldata (path : List Swap) (initial_amount : Nat)
    (override_fees : OverrideFees) : Except CodecErr (List (List Nat)) :=
  let norm : Except CodecErr (Option (List (Option Nat))) :=
    if override_fees.truthy then
      match override_fees with
      | .absent => Except.ok Option.none
      | .int f =>
          let fs := List.replicate path.length (some f)
          if fs.length ≠ path.length then Except.error CodecErr.ShapeMismatch
          else Except.ok (some fs)
      | .list fs =>
          if fs.length ≠ path.length then Except.error CodecErr.ShapeMismatch
          else Except.ok (some fs)
    else Except.ok Option.none
  match norm with
  | Except.error e => Except.error e
  | Except.ok ov =>
      let pools := (List.range path.length).map (fun i => (path[i]!).pool.address)
      let fees := (List.range path.length).map (fun i =>
        match ov with
        | some fs =>
            match fs[i]! with
            | some f => f
            | Option.none => (path[i]!).pool.feesPPM
        | Option.none => (path[i]!).pool.feesPPM)
      pack_args_payload pools fees initial_amount 0 Option.none

/-! ### Inspection decoding: `SwapInspection.from_output` -/

/-- The `SwapInspection` dataclass (`__init__.py` lines 30-39): one decoded
step of a simulation trace. -/
structure SwapInspection where
  tokenIn : String
  tokenOut : String
  reserveIn : Nat
  reserveOut : Nat
  transferredAmountIn : Nat
  measuredAmountIn : Nat
  transferredAmountOut : Nat
  measuredAmountOut : Nat
  deriving DecidableEq, Repr

/-- The record built from one well-formed 8-field row (`__init__.py` lines
48-64): fields are taken positionally; the two token fields go through the
external `eth_utils.to_checksum_address`, abstracted as the `checksum`
parameter (raw field values are modelled as integers, see the header note). -/
def mk_inspection (checksum : Nat → String) (t : List Nat) : SwapInspection :=
  { tokenIn := checksum t[0]!
    tokenOut := checksum t[1]!
    reserveIn := t[2]!
    reserveOut := t[3]!
    transferredAmountIn := t[4]!
    measuredAmountIn := t[5]!
    transferredAmountOut := t[6]!
    measuredAmountOut := t[7]! }

/-- The per-row step of `SwapInspection.from_output`: `assert len(t) == 8`
(= `RowShapeError`, spec §4.4) and positional decode. -/
def row_to_inspection (checksum : Nat → String) (t : List Nat) :
    Except CodecErr SwapInspection :=
  if t.length = 8 then Except.ok (mk_inspection checksum t)
  else Except.error CodecErr.RowShapeError

/-- `SwapInspection.from_output` (`__init__.py` lines 41-67) on sequence input:
the loop decodes each row in order, appending to `res`, and the `assert`
raises at the first malformed row.  The non-sequence branch (`RuntimeError`,
spec's `NotASequence`) is outside this typed embedding's input type. -/
def from_output (checksum : Nat → String) :
    List (List Nat) → Except CodecErr (List SwapInspection)
  | [] => Except.ok []
  | t :: rest =>
    match row_to_inspection checksum t with
    | Except.error e => Except.error e
    | Except.ok v =>
      match from_output checksum rest with
      | Except.error e => Except.error e
      | Except.ok vs => Except.ok (v :: vs)

/-! ### Plan reconciliation: `SwapInspection.update_attack_plan` -/

/-- The externally owned attack plan, reduced to what `update_attack_plan`
reads: `attack_plan.path.size()` and the tokens before/after each step
(tokens modelled by integer identifiers). -/
structure AttackPlan where
  pathSize : Nat
  token_before_step : Nat → Nat
  token_after_step : Nat → Nat

/-- One setter invocation on the external plan object (the spec §6 `Plan`
interface).  `update_attack_plan` is embedded as the ordered trace of the
setter calls it performs, so "performs no mutation" is "produces no trace". -/
inductive SetterCall
  | set_pool_token_reserve (idx : Nat) (token : Nat) (value : Nat)
  | set_issued_balance_before_step (idx : Nat) (value : Nat)
  | set_measured_balance_before_step (idx : Nat) (value : Nat)
  | set_issued_balance_after_step (idx : Nat) (value : Nat)
  | set_measured_balance_after_step (idx : Nat) (value : Nat)
  deriving DecidableEq, Repr

/-- `SwapInspection.update_attack_plan` (`__init__.py` lines 115-130).
The leading `assert len(swap_inspection_seq) == attack_plan.path.size()` is
the `ShapeMismatch` branch and precedes every setter call; on success the
result is the ordered trace of setter calls of the loop body. -/
def update_attack_plan (attack_plan : AttackPlan)
    (swap_inspection_seq : List SwapInspection) :
    Except CodecErr (List SetterCall) :=
  if swap_inspection_seq.length = attack_plan.pathSize then
    Except.ok (swap_inspection_seq.enum.flatMap (fun p =>
      [SetterCall.set_pool_token_reserve p.1
         (attack_plan.token_before_step p.1) p.2.reserveIn,
       SetterCall.set_pool_token_reserve p.1
         (attack_plan.token_after_step p.1) p.2.reserveOut] ++
      (if p.1 = 0 then
        [SetterCall.set_issued_balance_before_step p.1 p.2.transferredAmountIn,
         SetterCall.set_measured_balance_before_step p.1 p.2.measuredAmountIn]
       else []) ++
      [SetterCall.set_issued_balance_after_step p.1 p.2.transferredAmountOut,
       SetterCall.set_measured_balance_after_step p.1 p.2.measuredAmountOut]))
  else Except.error CodecErr.ShapeMismatch

/-! ### Selector discovery: `enumerate_method_selectors` (`__main__.py`) -/

/-- One declared input parameter of an ABI function entry; the code reads only
`inputs[0].get("internalType")`, which may be missing (`Option.none`). -/
structure AbiInput where
  internalType : Option String
  deriving DecidableEq, Repr, Inhabited

/-- One ABI function entry as read by `enumerate_method_selectors`: a name
(`c.get("name")`; a missing name behaves like the empty string, both being
falsy) and the declared input parameters. -/
structure AbiFunction where
  name : String
  inputs : List AbiInput
  deriving DecidableEq, Repr

/-- Errors during selector discovery: the `ValueError`s raised in
`__main__.py` (spec §7 `SelectorShapeError`), and a failure inside the
external ABI encoder, which is a distinct error source outside this
repository. -/
inductive SelErr
  | SelectorShapeError
  | EncodeError
  deriving DecidableEq, Repr

/-- Python `str.startswith` on character lists (the library's byte-position
string primitives do not reduce in the kernel, so the check is spelled out). -/
def chars_start_with : List Char → List Char → Bool
  | _, [] => true
  | [], _ :: _ => false
  | c :: cs, p :: ps => c = p && chars_start_with cs ps

/-- Python `str.startswith`. -/
def starts_with (s pre : String) : Bool :=
  chars_start_with s.toList pre.toList

/-- Python `int(...)` on a string of decimal digits. -/
def digits_to_nat (ds : List Char) : Nat :=
  ds.foldl (fun acc c => 10 * acc + (c.toNat - 48)) 0

/-- `_extract_numeric_tail` (`__main__.py` lines 38-40):
`re.split(r"[^\d]", text)[-1]` — the last token of splitting on non-digits is
the maximal digit suffix of the string (everything after the last non-digit
character), possibly empty. -/
def extract_numeric_tail (text : String) : String :=
  String.mk (((text.toList.reverse).takeWhile Char.isDigit).reverse)

/-- Scanner behind `_parse_numeric_array_length`: the first position where
`re.search(r"\[(\d+)\]")` matches, i.e. the first occurrence of a bracketed
non-empty digit run. -/
def scan_array_length : List Char → Option Nat
  | [] => Option.none
  | c :: rest =>
    if c = '[' then
      let ds := rest.takeWhile Char.isDigit
      if ds ≠ [] ∧ (rest.drop ds.length).head? = some ']' then
        some (digits_to_nat ds)
      else scan_array_length rest
    else scan_array_length rest

/-- `_parse_numeric_array_length` (`__main__.py` lines 42-48): its
`ValueError` on a type string without a fixed array size is the spec's
`SelectorShapeError`. -/
def parse_numeric_array_length (input_str : String) : Except SelErr Nat :=
  match scan_array_length input_str.toList with
  | some n => Except.ok n
  | Option.none => Except.error SelErr.SelectorShapeError

/-- Modelled from the spec: the 4-byte selector computed by the external ABI
encoder is a pure function of the signature — the function name plus its
parameter types (§4.3 step 3, glossary "Selector").  The concrete byte value
never matters to the claims, so the signature string itself stands in for it. -/
def selector_of (f : AbiFunction) : String :=
  f.name ++ "(" ++
    String.intercalate "," (f.inputs.map (fun i => i.internalType.getD "")) ++ ")"

/-- Modelled from the spec: web3's `contract.encodeABI`, the external
collaborator performing the local, read-only probe encoding (§5, §4.3 step 3);
its source is not part of this repository.  Encoding succeeds exactly when the
number of supplied arguments matches the declared parameter count (web3
validates the argument list against the ABI and raises otherwise, an error
distinct from this repository's `ValueError`s), and yields the selector. -/
def encodeABI (f : AbiFunction) (args : Option (List (List Nat))) :
    Except SelErr String :=
  match args with
  | Option.none =>
      if f.inputs.length = 0 then Except.ok (selector_of f)
      else Except.error SelErr.EncodeError
  | some as =>
      if as.length = f.inputs.length then Except.ok (selector_of f)
      else Except.error SelErr.EncodeError

/-- One discovered selector entry: the selector, the word-slot count `nn`
printed as `uint256[nn]` (the spec's path length), the hop count printed as
`PATH_LENGTH=` in the log line (`nn - 1`, an `Int` exactly as Python computes
it), and the logged description line itself. -/
structure SelectorEntry where
  selector : String
  pathLength : Nat
  hopCount : Int
  description : String
  deriving DecidableEq, Repr

/-- The log line of the numeric-suffix branch (`__main__.py` line 65). -/
def describe_numeric (fname : String) (nn : Nat) : String :=
  fname ++ "() reads uint256[" ++ toString nn ++ "] --> PATH_LENGTH=" ++
    toString ((nn : Int) - 1)

/-- The log line of the fixed-array-parameter branch (`__main__.py` line 77). -/
def describe_array (fname : String) (array_length : Nat) : String :=
  fname ++ "(uint256[" ++ toString array_length ++ "]) --> PATH_LENGTH=" ++
    toString ((array_length : Int) - 1)

/-- The loop body of `enumerate_method_selectors` (`__main__.py` lines 57-77)
for one ABI entry: `Option.none` means the entry was skipped (name missing/empty
or not starting with `multiswap`/`swapinspect`).  When the name's numeric tail
is a digit string the branch encodes a zero-argument probe call; otherwise the
entry must declare exactly one input (`ValueError` = `SelectorShapeError`)
whose `internalType` is present, non-empty, and carries a fixed array size,
and the probe call passes one argument — an array of that length filled with
the placeholder `123`. -/
def discover_one (c : AbiFunction) : Except SelErr (Option SelectorEntry) :=
  if c.name ≠ "" ∧
      (starts_with c.name "multiswap" ∨ starts_with c.name "swapinspect") then
    let numeric_tail := extract_numeric_tail c.name
    if numeric_tail ≠ "" then
      let nn := digits_to_nat numeric_tail.toList
      match encodeABI c Option.none with
      | Except.error e => Except.error e
      | Except.ok sel =>
          Except.ok (some ⟨sel, nn, (nn : Int) - 1, describe_numeric c.name nn⟩)
    else
      if c.inputs.length ≠ 1 then Except.error SelErr.SelectorShapeError
      else
        match (c.inputs[0]!).internalType with
        | Option.none => Except.error SelErr.SelectorShapeError
        | some it =>
          if it = "" then Except.error SelErr.SelectorShapeError
          else
            match parse_numeric_array_length it with
            | Except.error e => Except.error e
            | Except.ok array_length =>
                match encodeABI c (some [List.replicate array_length 123]) with
                | Except.error e => Except.error e
                | Except.ok sel =>
                    Except.ok (some ⟨sel, array_length, (array_length : Int) - 1,
                                     describe_array c.name array_length⟩)
  else Except.ok Option.none

/-- `enumerate_method_selectors` (`__main__.py` lines 50-77): every ABI entry
is visited in order; a raised error aborts the whole enumeration. -/
def enumerate_method_selectors (abi : List AbiFunction) :
    Except SelErr (List SelectorEntry) :=
  abi.foldlM (fun acc c =>
    match discover_one c with
    | Except.error e => Except.error e
    | Except.ok (some entry) => Except.ok (acc ++ [entry])
    | Except.ok Option.none => Except.ok acc) []

/-! ### Helper lemmas about `pack_args_payload`'s word list -/

theorem list_getD_of_lt {α : Type _} (l : List α) (i : Nat) (d : α)
    (h : i < l.length) : l.getD i d = l[i] := by
  rw [List.getD_eq_getElem?_getD, List.getElem?_eq_getElem h, Option.getD_some]

theorem pack_ok (pools fees : List Nat) (ia ea : Nat) (s : Option Int)
    (h : pools.length = fees.length) :
    pack_args_payload pools fees ia ea s =
      Except.ok [(pools.zip fees).enum.map (step_word s) ++ [amounts_word ia ea]] := by
  simp [pack_args_payload, h]

theorem step_words_length (pools fees : List Nat) (s : Option Int)
    (h : pools.length = fees.length) :
    ((pools.zip fees).enum.map (step_word s)).length = pools.length := by
  simp [← h]

theorem step_words_getD (pools fees : List Nat) (s : Option Int) (i : Nat)
    (h : pools.length = fees.length) (hi : i < pools.length) :
    ((pools.zip fees).enum.map (step_word s)).getD i 0 =
      step_word s (i, (pools.getD i 0, fees.getD i 0)) := by
  have hzip : i < (pools.zip fees).length := by
    rw [List.length_zip, ← h, Nat.min_self]; exact hi
  have henum : i < (pools.zip fees).enum.length := by
    rw [List.enum_length]; exact hzip
  have hmap : i < ((pools.zip fees).enum.map (step_word s)).length := by
    rw [List.length_map]; exact henum
  rw [list_getD_of_lt _ _ _ hmap, List.getElem_map, List.getElem_enum,
      List.getElem_zip, list_getD_of_lt pools i 0 hi,
      list_getD_of_lt fees i 0 (by omega)]

theorem append_getD_left {α : Type _} (l₁ l₂ : List α) (i : Nat) (d : α)
    (h : i < l₁.length) : (l₁ ++ l₂).getD i d = l₁.getD i d := by
  rw [List.getD_eq_getElem?_getD, List.getElem?_append_left h,
      ← List.getD_eq_getElem?_getD]

theorem concat_getD_length {α : Type _} (l : List α) (a d : α) :
    (l ++ [a]).getD l.length d = a := by
  rw [List.getD_eq_getElem?_getD, List.getElem?_concat_length, Option.getD_some]

/-- A `none` stop marker never fires, so a step word is the plain
address/fee word. -/
theorem step_word_none (i p f : Nat) :
    step_word Option.none (i, (p, f)) = p ||| f <<< 160 := by
  simp [step_word]

/-! ### C1: word count and per-step bit layout of `pack` -/

/-- **C1** (amended): for pools/fees of equal length `L` whose values fit
their bit fields (each pool `< 2^160`, each fee `< 2^20` — spec §3's
invariants; without them `fee << 160` silently overflows into higher bits,
see the counterexample), `pack` with `stop_after_pool` absent returns exactly
`L+1` words as the sole element of a one-argument parameter list, and bits
[0,160) and [160,180) of word `i` decode to `pools[i]` and `fees[i]`. -/
theorem C1_pack_word_layout (pools fees : List Nat)
    (initial_amount expected_amount : Nat)
    (h : pools.length = fees.length)
    (hp : ∀ p ∈ pools, p < 2 ^ 160) (hf : ∀ f ∈ fees, f < 2 ^ 20) :
    ∃ args : List Nat,
      pack_args_payload pools fees initial_amount expected_amount Option.none =
        Except.ok [args] ∧
      args.length = pools.length + 1 ∧
      ∀ i, i < pools.length →
        args.getD i 0 % 2 ^ 160 = pools.getD i 0 ∧
        (args.getD i 0 >>> 160) % 2 ^ 20 = fees.getD i 0 := by
  refine ⟨_, pack_ok pools fees initial_amount expected_amount Option.none h,
          ?_, ?_⟩
  · rw [List.length_append, step_words_length pools fees Option.none h]
    rfl
  · intro i hi
    have hsl := step_words_length pools fees Option.none h
    rw [append_getD_left _ _ i 0 (by rw [hsl]; exact hi),
        step_words_getD pools fees Option.none i h hi, step_word_none]
    have hpi : pools.getD i 0 < 2 ^ 160 := by
      rw [list_getD_of_lt pools i 0 hi]
      exact hp _ (List.getElem_mem hi)
    have hfi : fees.getD i 0 < 2 ^ 20 := by
      have hif : i < fees.length := by omega
      rw [list_getD_of_lt fees i 0 hif]
      exact hf _ (List.getElem_mem hif)
    exact ⟨lor_shl_mod _ _ _ hpi, lor_shl_shr_mod _ _ _ _ hpi hfi⟩

/-- Witness for C1 at pools `[5]`, fees `[300]`, amounts `7`/`9`. -/
theorem C1_pack_word_layout_witness :
    ∃ args : List Nat,
      pack_args_payload [5] [300] 7 9 Option.none = Except.ok [args] ∧
      args.length = [5].length + 1 ∧
      ∀ i, i < [5].length →
        args.getD i 0 % 2 ^ 160 = [5].getD i 0 ∧
        (args.getD i 0 >>> 160) % 2 ^ 20 = [300].getD i 0 :=
  C1_pack_word_layout [5] [300] 7 9 (by decide) (by decide) (by decide)

/-- Counterexample to C1 as stated (no range restriction): with `fees[0] =
2^20` the packed word is `2^180`, whose bits [160,180) decode to `0`, not
`fees[0]` — the fee silently corrupts higher bits (spec §3, §9). -/
theorem C1_counterexample :
    pack_args_payload [0] [2 ^ 20] 0 0 Option.none =
      Except.ok [[2 ^ 180, 0]] ∧
    ((2 ^ 180 : Nat) >>> 160) % 2 ^ 20 = 0 ∧ (0 : Nat) ≠ 2 ^ 20 := by
  refine ⟨by decide, by decide, by decide⟩

/-! ### C4: the amounts word round-trips the two 128-bit amounts -/

/-- **C4** (amended): when `initialAmount` and `expectedAmount` each fit in
128 bits (spec §3's invariant; the code masks with `MASK128`, so larger
values are silently truncated — see the counterexample), the low and high 128
bits of the produced amounts word (the last of the `L+1` words) recover them
exactly. -/
theorem C4_amounts_word_roundtrip (pools fees : List Nat)
    (initial_amount expected_amount : Nat)
    (h : pools.length = fees.length)
    (hia : initial_amount < 2 ^ 128) (hea : expected_amount < 2 ^ 128) :
    ∃ args : List Nat,
      pack_args_payload pools fees initial_amount expected_amount Option.none =
        Except.ok [args] ∧
      args.getD pools.length 0 % 2 ^ 128 = initial_amount ∧
      (args.getD pools.length 0 >>> 128) % 2 ^ 128 = expected_amount := by
  refine ⟨_, pack_ok pools fees initial_amount expected_amount Option.none h,
          ?_, ?_⟩ <;>
    rw [← step_words_length pools fees Option.none h, concat_getD_length,
        amounts_word_eq]
  · rw [lor_shl_mod _ _ _ (Nat.mod_lt _ (by norm_num)),
        Nat.mod_eq_of_lt hia]
  · rw [lor_shl_shr _ _ _ (Nat.mod_lt _ (by norm_num)),
        Nat.mod_eq_of_lt (Nat.mod_lt _ (by norm_num)),
        Nat.mod_eq_of_lt hea]

/-- Witness for C4 at pools `[5]`, fees `[300]`, amounts `7`/`9`. -/
theorem C4_amounts_word_roundtrip_witness :
    ∃ args : List Nat,
      pack_args_payload [5] [300] 7 9 Option.none = Except.ok [args] ∧
      args.getD [5].length 0 % 2 ^ 128 = 7 ∧
      (args.getD [5].length 0 >>> 128) % 2 ^ 128 = 9 :=
  C4_amounts_word_roundtrip [5] [300] 7 9 (by decide) (by decide) (by decide)

/-- Counterexample to C4 as stated (no range restriction): with
`initialAmount = 2^128` the amounts word is `0`, whose low 128 bits are `0`,
not `initialAmount` — the `& MASK128` silently truncates (spec §3, §9). -/
theorem C4_counterexample :
    pack_args_payload [] [] (2 ^ 128) 0 Option.none = Except.ok [[0]] ∧
    (0 : Nat) % 2 ^ 128 = 0 ∧ (2 ^ 128 : Nat) ≠ 0 := by
  refine ⟨by decide, by decide, by decide⟩

/-! ### C8: mismatched pools/fees lengths -/

/-- **C8**: for every pools/fees pair of different lengths (and any amounts
and stop marker), `pack` fails with `ShapeMismatch` (the
`assert len(pools) == len(fees)`) and produces no output. -/
theorem C8_pack_shape_mismatch (pools fees : List Nat)
    (initial_amount expected_amount : Nat) (stop_after_pool : Option Int)
    (h : pools.length ≠ fees.length) :
    pack_args_payload pools fees initial_amount expected_amount
      stop_after_pool = Except.error CodecErr.ShapeMismatch := by
  simp [pack_args_payload, h]

/-- Witness for C8 at pools `[1]`, fees `[]`. -/
theorem C8_pack_shape_mismatch_witness :
    pack_args_payload [1] [] 0 0 Option.none =
      Except.error CodecErr.ShapeMismatch :=
  C8_pack_shape_mismatch [1] [] 0 0 Option.none (by decide)

/-! ### C10: non-matching `stop_after_pool` values are silently ignored -/

/-- **C10** (amended): for equal-length pools/fees and any `stop_after_pool`
that equals no index in `[0, L)` (including negative and out-of-range
integers), `pack_args_payload` produces exactly the words of the
`stop_after_pool`-absent call — the invalid value is silently ignored, not
rejected; and provided each pool fits 160 bits and each fee 20 bits, bit 180
is clear in every *step* word (as stated the claim also fails without those
ranges, and on the trailing amounts word, whose bit 180 is bit 52 of
`expectedAmount` — see the counterexample). -/
theorem C10_stop_after_pool_ignored (pools fees : List Nat)
    (initial_amount expected_amount : Nat) (stop_after_pool : Option Int)
    (h : pools.length = fees.length)
    (hs : ∀ i : Nat, i < pools.length → stop_after_pool ≠ some (i : Int)) :
    ∃ args : List Nat,
      pack_args_payload pools fees initial_amount expected_amount
        stop_after_pool = Except.ok [args] ∧
      pack_args_payload pools fees initial_amount expected_amount
        Option.none = Except.ok [args] ∧
      ((∀ p ∈ pools, p < 2 ^ 160) → (∀ f ∈ fees, f < 2 ^ 20) →
        ∀ i, i < pools.length → (args.getD i 0).testBit 180 = false) := by
  have hmap : (pools.zip fees).enum.map (step_word stop_after_pool) =
      (pools.zip fees).enum.map (step_word Option.none) := by
    apply List.map_congr_left
    intro a ha
    obtain ⟨i, pf⟩ := a
    have hi : i < (pools.zip fees).length := (List.mem_enum ha).1
    have hi' : i < pools.length := by
      rw [List.length_zip, ← h, Nat.min_self] at hi; exact hi
    simp [step_word, hs i hi']
  refine ⟨_, pack_ok pools fees initial_amount expected_amount stop_after_pool h,
          ?_, ?_⟩
  · rw [pack_ok pools fees initial_amount expected_amount Option.none h, hmap]
  · intro hp hf i hi
    rw [hmap, append_getD_left _ _ i 0
          (by rw [step_words_length pools fees Option.none h]; exact hi),
        step_words_getD pools fees Option.none i h hi, step_word_none]
    have hpi : pools.getD i 0 < 2 ^ 160 := by
      rw [list_getD_of_lt pools i 0 hi]
      exact hp _ (List.getElem_mem hi)
    have hfi : fees.getD i 0 < 2 ^ 20 := by
      have hif : i < fees.length := by omega
      rw [list_getD_of_lt fees i 0 hif]
      exact hf _ (List.getElem_mem hif)
    exact step_val_testBit_180 _ _ hpi hfi

/-- Witness for C10 at pools `[5]`, fees `[300]`, `stop_after_pool = 7`. -/
theorem C10_stop_after_pool_ignored_witness :
    ∃ args : List Nat,
      pack_args_payload [5] [300] 1 2 (some 7) = Except.ok [args] ∧
      pack_args_payload [5] [300] 1 2 Option.none = Except.ok [args] ∧
      ((∀ p ∈ [5], p < 2 ^ 160) → (∀ f ∈ [300], f < 2 ^ 20) →
        ∀ i, i < [5].length → (args.getD i 0).testBit 180 = false) :=
  C10_stop_after_pool_ignored [5] [300] 1 2 (some 7) (by decide) (by decide)

/-- Counterexample to C10 as stated: at pools `[]`, fees `[]`,
`expectedAmount = 2^52` and the non-matching `stop_after_pool = 5`, the single
produced word (the amounts word) is `2^180`, so bit 180 *is* set in a word
even though the stop marker never fired. -/
theorem C10_counterexample :
    pack_args_payload [] [] 0 (2 ^ 52) (some 5) = Except.ok [[2 ^ 180]] ∧
    Nat.testBit (2 ^ 180) 180 = true := by
  refine ⟨by decide, by decide⟩

/-! ### Helper lemmas about the lists built by `inspection_calldata` -/

theorem pools_of_path (path : List Swap) :
    (List.range path.length).map (fun i => (path[i]!).pool.address) =
      path.map (fun s => s.pool.address) := by
  apply List.ext_getElem
  · simp
  · intro i h1 h2
    simp only [List.getElem_map, List.getElem_range]
    rw [getElem!_pos path i (by simpa using h2)]

theorem fees_of_path (path : List Swap) :
    (List.range path.length).map (fun i => (path[i]!).pool.feesPPM) =
      path.map (fun s => s.pool.feesPPM) := by
  apply List.ext_getElem
  · simp
  · intro i h1 h2
    simp only [List.getElem_map, List.getElem_range]
    rw [getElem!_pos path i (by simpa using h2)]

theorem fees_broadcast (path : List Swap) (f : Nat) :
    (List.range path.length).map (fun i =>
        match (List.replicate path.length (some f))[i]! with
        | some g => g
        | Option.none => (path[i]!).pool.feesPPM) =
      List.replicate path.length f := by
  apply List.ext_getElem
  · simp
  · intro i h1 h2
    simp only [List.getElem_map, List.getElem_range, List.getElem_replicate]
    rw [getElem!_pos (List.replicate path.length (some f)) i (by simpa using h1)]
    simp

/-! ### C2: a broadcast override fee equals `pack` with the fee repeated -/

/-- **C2** (amended): for every *nonzero* broadcast override fee `f`,
`inspection_calldata` produces exactly the words of `pack` with `f` repeated
`L` times and `expectedAmount = 0`.  (For `f = 0` the claim fails: Python's
`if override_fees:` treats `0` as falsy and keeps each step's own pool fee —
see the counterexample and C9.) -/
theorem C2_broadcast_override (path : List Swap) (initial_amount f : Nat)
    (hf : f ≠ 0) :
    inspection_calldata path initial_amount (OverrideFees.int f) =
      pack_args_payload (path.map (fun s => s.pool.address))
        (List.replicate path.length f) initial_amount 0 Option.none := by
  have ht : (OverrideFees.int f).truthy = true := by
    simp [OverrideFees.truthy, hf]
  simp only [inspection_calldata, ht, if_true, List.length_replicate,
    ne_eq, not_true_eq_false, if_false]
  rw [pools_of_path, fees_broadcast]

/-- Witness for C2: one step with pool address `5`, pool fee `300`, broadcast
override `7`. -/
theorem C2_broadcast_override_witness :
    inspection_calldata [⟨⟨5, 300⟩⟩] 1 (OverrideFees.int 7) =
      pack_args_payload [5] (List.replicate 1 7) 1 0 Option.none :=
  (C2_broadcast_override [⟨⟨5, 300⟩⟩] 1 7 (by decide)).trans (by decide)

/-- Counterexample to C2 as stated (any single integer override): with the
broadcast override `0` on a path whose pool fee is `300`, the words keep fee
`300`, differing from `pack` with `0` repeated. -/
theorem C2_counterexample :
    inspection_calldata [⟨⟨5, 300⟩⟩] 1 (OverrideFees.int 0) ≠
      pack_args_payload [5] (List.replicate 1 0) 1 0 Option.none := by
  decide

/-! ### C9: falsy overrides (`0`, `[]`) behave exactly like no override -/

/-- **C9**: `inspection_calldata` with `override_fees = 0` or `= []` behaves
exactly as with no override — every step uses its own pool fee — and no
override-length check is performed (both equalities hold for *every* path,
so an empty override list on a non-empty path does not fail). -/
theorem C9_falsy_overrides (path : List Swap) (initial_amount : Nat) :
    inspection_calldata path initial_amount (OverrideFees.int 0) =
      inspection_calldata path initial_amount OverrideFees.absent ∧
    inspection_calldata path initial_amount (OverrideFees.list []) =
      inspection_calldata path initial_amount OverrideFees.absent ∧
    inspection_calldata path initial_amount OverrideFees.absent =
      pack_args_payload (path.map (fun s => s.pool.address))
        (path.map (fun s => s.pool.feesPPM)) initial_amount 0 Option.none := by
  refine ⟨rfl, rfl, ?_⟩
  simp only [inspection_calldata, OverrideFees.truthy, Bool.false_eq_true,
    if_false]
  rw [pools_of_path, fees_of_path]

/-! ### C6: reconciliation length guard precedes any mutation -/

/-- **C6**: whenever the inspection sequence's length differs from the plan's
path length, `update_attack_plan` fails with `ShapeMismatch` (the leading
`assert`) and performs no mutation — the error result carries no setter-call
trace, and in the source the `assert` precedes the first setter call. -/
theorem C6_reconcile_shape_mismatch (plan : AttackPlan)
    (seq : List SwapInspection) (h : seq.length ≠ plan.pathSize) :
    update_attack_plan plan seq = Except.error CodecErr.ShapeMismatch := by
  simp [update_attack_plan, h]

/-- Witness for C6: empty inspection sequence against a one-step plan. -/
theorem C6_reconcile_shape_mismatch_witness :
    update_attack_plan ⟨1, fun _ => 0, fun _ => 0⟩ [] =
      Except.error CodecErr.ShapeMismatch :=
  C6_reconcile_shape_mismatch ⟨1, fun _ => 0, fun _ => 0⟩ [] (by decide)

/-! ### C7: row arity check and positional decode -/

/-- **C7**: `from_output` fails with `RowShapeError` whenever any row's arity
is not exactly 8, and on all-well-formed input returns one record per row, in
row order, with the 8 fields mapped positionally (tokenIn, tokenOut,
reserveIn, reserveOut, transferredAmountIn, measuredAmountIn,
transferredAmountOut, measuredAmountOut) — for any address normalizer
`checksum`. -/
theorem C7_decode_rows (checksum : Nat → String) (data : List (List Nat)) :
    ((∃ t ∈ data, t.length ≠ 8) →
      from_output checksum data = Except.error CodecErr.RowShapeError) ∧
    ((∀ t ∈ data, t.length = 8) →
      from_output checksum data = Except.ok (data.map (mk_inspection checksum))) := by
  induction data with
  | nil =>
    refine ⟨?_, fun _ => rfl⟩
    rintro ⟨t, ht, _⟩
    cases ht
  | cons t ts ih =>
    refine ⟨?_, ?_⟩
    · rintro ⟨u, hu, hlen⟩
      rcases List.mem_cons.mp hu with rfl | hu'
      · simp [from_output, row_to_inspection, hlen]
      · by_cases h8 : t.length = 8
        · have herr := ih.1 ⟨u, hu', hlen⟩
          simp [from_output, row_to_inspection, h8, herr]
        · simp [from_output, row_to_inspection, h8]
    · intro hall
      have h8 : t.length = 8 := hall t (List.mem_cons_self t ts)
      have hts := ih.2 (fun u hu => hall u (List.mem_cons_of_mem t hu))
      simp [from_output, row_to_inspection, h8, hts]

/-- Witness for C7: a 3-field row fails with `RowShapeError`; a single
8-field row decodes positionally (with `toString` as the normalizer). -/
theorem C7_decode_rows_witness :
    from_output toString [[1, 2, 3]] = Except.error CodecErr.RowShapeError ∧
    from_output toString [[1, 2, 3, 4, 5, 6, 7, 8]] =
      Except.ok [⟨"1", "2", 3, 4, 5, 6, 7, 8⟩] :=
  ⟨(C7_decode_rows toString [[1, 2, 3]]).1 ⟨[1, 2, 3], by decide, by decide⟩,
   ((C7_decode_rows toString [[1, 2, 3, 4, 5, 6, 7, 8]]).2
      (by decide)).trans (by decide)⟩

/-! ### C3/C5: selector discovery shapes -/

theorem enumerate_single (c : AbiFunction) :
    enumerate_method_selectors [c] =
      match discover_one c with
      | Except.error e => Except.error e
      | Except.ok (some entry) => Except.ok [entry]
      | Except.ok Option.none => Except.ok [] := by
  cases hd : discover_one c with
  | error e => simp [enumerate_method_selectors, hd]
  | ok o => cases o <;> simp [enumerate_method_selectors, hd]

/-- **C3** (amended): for an ABI function whose name starts with `multiswap`
or `swapinspect`: (1) if the name carries a numeric suffix and the function
declares zero input parameters, its path length is that suffix value;
when the name carries *no* numeric suffix, the function must declare exactly
one input parameter whose type carries a fixed array size, every violation
failing with `SelectorShapeError`: (2) a parameter count other than one — in
particular two parameters of any type; (3) a sole parameter with no internal
type (the `if not internalType` check also catches the empty string, which
part (4) covers as well since no bracketed digit run occurs in it); (4) a
sole parameter whose internal type carries no fixed array size.
(As stated — for *every* function with two inputs — the claim fails: a
numeric-suffixed name such as `multiswap2` never reaches the one-parameter
check; the code attempts a zero-argument probe encode, which fails inside
the external encoder, not with this repository's `SelectorShapeError` — see
the counterexample.) -/
theorem C3_selector_shapes :
    (∀ c : AbiFunction,
      (starts_with c.name "multiswap" = true ∨
        starts_with c.name "swapinspect" = true) →
      extract_numeric_tail c.name ≠ "" →
      c.inputs = [] →
      enumerate_method_selectors [c] =
        Except.ok [⟨selector_of c,
          digits_to_nat (extract_numeric_tail c.name).toList,
          (digits_to_nat (extract_numeric_tail c.name).toList : Int) - 1,
          describe_numeric c.name
            (digits_to_nat (extract_numeric_tail c.name).toList)⟩]) ∧
    (∀ c : AbiFunction,
      (starts_with c.name "multiswap" = true ∨
        starts_with c.name "swapinspect" = true) →
      extract_numeric_tail c.name = "" →
      c.inputs.length ≠ 1 →
      enumerate_method_selectors [c] =
        Except.error SelErr.SelectorShapeError) ∧
    (∀ c : AbiFunction,
      (starts_with c.name "multiswap" = true ∨
        starts_with c.name "swapinspect" = true) →
      extract_numeric_tail c.name = "" →
      c.inputs = [⟨Option.none⟩] →
      enumerate_method_selectors [c] =
        Except.error SelErr.SelectorShapeError) ∧
    (∀ (c : AbiFunction) (it : String),
      (starts_with c.name "multiswap" = true ∨
        starts_with c.name "swapinspect" = true) →
      extract_numeric_tail c.name = "" →
      c.inputs = [⟨some it⟩] →
      scan_array_length it.toList = Option.none →
      enumerate_method_selectors [c] =
        Except.error SelErr.SelectorShapeError) := by
  have hname : ∀ c : AbiFunction,
      (starts_with c.name "multiswap" = true ∨
        starts_with c.name "swapinspect" = true) → c.name ≠ "" := by
    intro c hpre he
    rw [he] at hpre
    exact absurd hpre (by decide)
  refine ⟨?_, ?_, ?_, ?_⟩
  · intro c hpre htail hinp
    rw [enumerate_single]
    simp only [discover_one]
    rw [if_pos ⟨hname c hpre, hpre⟩, if_pos htail]
    simp [encodeABI, hinp]
  · intro c hpre htail hinp
    rw [enumerate_single]
    simp only [discover_one]
    rw [if_pos ⟨hname c hpre, hpre⟩, if_neg (by simp [htail]), if_pos hinp]
  · intro c hpre htail hinp
    rw [enumerate_single]
    simp only [discover_one]
    rw [if_pos ⟨hname c hpre, hpre⟩, if_neg (by simp [htail]), hinp]
    simp
  · intro c it hpre htail hinp hscan
    rw [enumerate_single]
    simp only [discover_one]
    rw [if_pos ⟨hname c hpre, hpre⟩, if_neg (by simp [htail]), hinp]
    by_cases hit : it = ""
    · subst hit
      simp
    · have hscan' : scan_array_length it.data = Option.none := hscan
      simp [hit, parse_numeric_array_length, hscan']

/-- Witness for C3, exercising all four parts: `multiswap7` with no inputs
yields path length 7; suffix-less `multiswap` with two inputs, `swapinspect`
with a sole type-less input, and `multiswap` with the sole non-array type
`uint256` each fail with `SelectorShapeError`. -/
theorem C3_selector_shapes_witness :
    (enumerate_method_selectors [⟨"multiswap7", []⟩] =
      Except.ok [⟨"multiswap7()", 7, 6,
        "multiswap7() reads uint256[7] --> PATH_LENGTH=6"⟩]) ∧
    (enumerate_method_selectors
        [⟨"multiswap", [⟨some "uint256"⟩, ⟨some "uint256"⟩]⟩] =
      Except.error SelErr.SelectorShapeError) ∧
    (enumerate_method_selectors [⟨"swapinspect", [⟨Option.none⟩]⟩] =
      Except.error SelErr.SelectorShapeError) ∧
    (enumerate_method_selectors [⟨"multiswap", [⟨some "uint256"⟩]⟩] =
      Except.error SelErr.SelectorShapeError) :=
  ⟨(C3_selector_shapes.1 ⟨"multiswap7", []⟩ (Or.inl (by decide)) (by decide)
      rfl).trans (by decide),
   C3_selector_shapes.2.1 ⟨"multiswap", [⟨some "uint256"⟩, ⟨some "uint256"⟩]⟩
     (Or.inl (by decide)) (by decide) (by decide),
   C3_selector_shapes.2.2.1 ⟨"swapinspect", [⟨Option.none⟩]⟩
     (Or.inr (by decide)) (by decide) rfl,
   C3_selector_shapes.2.2.2 ⟨"multiswap", [⟨some "uint256"⟩]⟩ "uint256"
     (Or.inl (by decide)) (by decide) rfl (by decide)⟩

/-- Counterexample to C3 as stated: `multiswap2` with two input parameters
takes the numeric-suffix branch (the parameter-count check is never reached),
and the zero-argument probe encode fails in the external encoder — discovery
does not fail with `SelectorShapeError`. -/
theorem C3_counterexample :
    enumerate_method_selectors
        [⟨"multiswap2", [⟨some "uint256"⟩, ⟨some "uint256"⟩]⟩] =
      Except.error SelErr.EncodeError ∧
    SelErr.EncodeError ≠ SelErr.SelectorShapeError := by
  refine ⟨by decide, by decide⟩

/-- **C5**: discovery on `multiswap5` with no parameters yields path length 5
with hop count 4 in its description line; on a function with one `uint256[8]`
parameter, path length 8 with hop count 7. -/
theorem C5_discover_examples :
    enumerate_method_selectors [⟨"multiswap5", []⟩] =
      Except.ok [⟨"multiswap5()", 5, 4,
        "multiswap5() reads uint256[5] --> PATH_LENGTH=4"⟩] ∧
    enumerate_method_selectors [⟨"swapinspect", [⟨some "uint256[8]"⟩]⟩] =
      Except.ok [⟨"swapinspect(uint256[8])", 8, 7,
        "swapinspect(uint256[8]) --> PATH_LENGTH=7"⟩] := by
  refine ⟨by decide, by decide⟩

end BofhContract
